import Mathlib

/-
Verification of the om-access-authentication-sdk dynamic-token guard and
OTP lifecycle manager (src/decorators/JWTDynamic.ts: `AuthenticationJWTDynamic`
and `OtpService`), shallowly embedded in Lean 4.

TypeScript async methods become pure Lean functions with explicit store
passing; JavaScript runtime faults (property access on null, otplib check on a
null secret) are surfaced with `Except Fault`; the tuple convention
`[value | null, error | null]` becomes the `TupleResult` structure.
-/

namespace OmAuth

/-- Error codes used by `OtpService` (imported from `../helpers/ErrorCode`;
only the three codes the source uses are modelled). -/
inductive ErrorCode where
  | LOGIN_NOT_FOUND
  | LOGIN_ALREADY_HAS_OTP
  | TOKEN_OTP_INVALID
deriving DecidableEq

/-- The `[value | null, error | null]` tuple convention (`TupleResult<V, E>`
from `../types`). -/
structure TupleResult (α β : Type) where
  value : Option α
  error : Option β
deriving DecidableEq

/-- A persisted login record. `otpToken` is the nullable OTP shared secret
(`LoginEntity` from `../entities`; the spec calls the field `otpSecret`). -/
structure LoginEntity where
  id : String
  email : String
  otpToken : Option String
deriving DecidableEq

/-- The login store's contents: the list of persisted records. -/
abbrev Store := List LoginEntity

/-- Modelled from the spec: the Login Store contract `findById(id) ->
LoginRecord | none` (`this.repository.findOne({ where: { id } })`; typeorm,
external collaborator). -/
def findOne (store : Store) (loginId : String) : Option LoginEntity :=
  store.find? (fun l => l.id == loginId)

/-- Modelled from the spec: the Login Store contract `save(record) -> void`,
atomic per record (`this.repository.save(login)`; typeorm, external
collaborator). -/
def saveLogin (store : Store) (login : LoginEntity) : Store :=
  store.map (fun l => if l.id == login.id then login else l)

/-- A JavaScript runtime fault (an unhandled exception that is not a
deliberately thrown `Error` of the source). -/
inductive Fault where
  /-- Property access on `null`/`undefined`: a `TypeError`. -/
  | nullPropertyAccess (prop : String)
  /-- otplib `authenticator.check` applied to a `null` secret: decoding the
  secret raises. -/
  | checkNullSecret
deriving DecidableEq

/-- The message a fault carries when caught (`error.message`). -/
def Fault.message : Fault → String
  | .nullPropertyAccess p => "Cannot read properties of null (reading " ++ p ++ ")"
  | .checkNullSecret => "The secret is not a string"

/-- Modelled from the spec: the OTP Secret Codec (otplib `authenticator`,
external collaborator) — `generateSecret`, `keyuri`, and `check(candidateCode,
secret) -> bool` over shared-secret strings. `generatedSecret` is the fresh
random secret the next `generateSecret()` call yields. -/
structure Authenticator where
  check : String → String → Bool
  generatedSecret : String
  keyuri : String → String → String → String

/-- Modelled from the spec: `authenticator.check` takes a secret string; the
source applies it to a nullable `login.otpToken`, and on a `null` secret the
codec raises rather than returning `false` (the spec: attempting to check a
code against a missing secret in a naive implementation throws an unhandled
fault). -/
def authCheck (A : Authenticator) (token : String) (secret : Option String) :
    Except Fault Bool :=
  match secret with
  | none => .error .checkNullSecret
  | some s => .ok (A.check token s)

/-- Return type of `createOTP`/`updateOTP`: a fresh secret with its
provisioning URI. -/
structure SecretAndKeyUri where
  secret : String
  keyUri : String
deriving DecidableEq

namespace OtpService

/-- `OtpService.createOTP(loginId)`: generate the first OTP secret for a login
and persist it. Fails with `LOGIN_NOT_FOUND` when the login does not exist and
with `LOGIN_ALREADY_HAS_OTP` when `otpToken` is already set. -/
def createOTP (A : Authenticator) (appName : String) (store : Store)
    (loginId : String) :
    Except Fault (TupleResult SecretAndKeyUri ErrorCode × Store) :=
  match findOne store loginId with
  | none => .ok (⟨none, some .LOGIN_NOT_FOUND⟩, store)
  | some login =>
    if login.otpToken.isSome then .ok (⟨none, some .LOGIN_ALREADY_HAS_OTP⟩, store)
    else
      let newLogin := { login with otpToken := some A.generatedSecret }
      let store2 := saveLogin store newLogin
      let keyUri := A.keyuri newLogin.email appName A.generatedSecret
      .ok (⟨some ⟨A.generatedSecret, keyUri⟩, none⟩, store2)

/-- `OtpService.updateOTP(loginId, token)`: rotate the stored secret, gated on
a currently valid proof code. -/
def updateOTP (A : Authenticator) (appName : String) (store : Store)
    (loginId token : String) :
    Except Fault (TupleResult SecretAndKeyUri ErrorCode × Store) :=
  match findOne store loginId with
  | none => .ok (⟨none, some .LOGIN_NOT_FOUND⟩, store)
  | some login =>
    match authCheck A token login.otpToken with
    | .error f => .error f
    | .ok tokenIsValid =>
      if !tokenIsValid then .ok (⟨none, some .TOKEN_OTP_INVALID⟩, store)
      else
        let newLogin := { login with otpToken := some A.generatedSecret }
        let store2 := saveLogin store newLogin
        let keyUri := A.keyuri newLogin.email appName A.generatedSecret
        .ok (⟨some ⟨A.generatedSecret, keyUri⟩, none⟩, store2)

/-- `OtpService.validateOTP(loginId, token)`: check a candidate code. NOTE:
the source evaluates `[null, ErrorCode.LOGIN_NOT_FOUND]` on the not-found path
but does not `return` it, so control falls through and `login.otpToken` is
read from the missing record — a `TypeError`. -/
def validateOTP (A : Authenticator) (store : Store) (loginId token : String) :
    Except Fault (TupleResult Bool ErrorCode × Store) :=
  match findOne store loginId with
  | none => .error (.nullPropertyAccess "otpToken")
  | some login =>
    match authCheck A token login.otpToken with
    | .error f => .error f
    | .ok tokenIsValid => .ok (⟨some tokenIsValid, none⟩, store)

/-- `OtpService.removeOTP(loginId, token)`: deprovision the stored secret,
gated on a currently valid proof code. NOTE: like `validateOTP` the not-found
branch drops its `[null, LOGIN_NOT_FOUND]` tuple without returning it, and the
success path returns `[true, null]` without assigning `login.otpToken = null`
and without calling `save` — the store is returned exactly as it came in. -/
def removeOTP (A : Authenticator) (store : Store) (loginId token : String) :
    Except Fault (TupleResult Bool ErrorCode × Store) :=
  match findOne store loginId with
  | none => .error (.nullPropertyAccess "otpToken")
  | some login =>
    match authCheck A token login.otpToken with
    | .error f => .error f
    | .ok tokenIsValid =>
      if !tokenIsValid then .ok (⟨none, some .TOKEN_OTP_INVALID⟩, store)
      else .ok (⟨some true, none⟩, store)

end OtpService

/-- Modelled from the spec: the decoded dynamic-token payload
(`JWTDynamicPayloadDTO`, `../dtos`): the workflow step `type`, the login `id`,
and the expected email `pin`. -/
structure JWTDynamicPayloadDTO where
  type : String
  id : String
  pin : String
deriving DecidableEq

/-- Modelled from the spec: the Bearer Token Processor
(`../helpers/BearerTokenProcessor`): structural check, signature check against
a given secret, and the decoded payload (absent when decoding failed). -/
structure BearerTokenProcessor where
  isBearerToken : Bool
  isSignatureValid : String → Bool
  payload : Option JWTDynamicPayloadDTO

/-- Modelled from the spec: `RequiredPin` (`../types/LoginTypes`) has the
declared members `ANY`, `ONLY_EMAIL`, `ONLY_OTP`; because a TypeScript enum is
open at runtime and the guard's switch has a `default` branch, a constructor
for any out-of-enum runtime value is included. -/
inductive RequiredPin where
  | ONLY_EMAIL
  | ONLY_OTP
  | ANY
  | outsideDeclaredMembers
deriving DecidableEq

/-- The policy metadata attached by the `JWTDynamic(step, requiredPin)`
decorator. -/
structure Policy where
  step : String
  requiredPin : RequiredPin
deriving DecidableEq

/-- The request headers the guard reads. Each is absent or a string value. -/
structure Headers where
  /-- `x-temporary-authorization` -/
  tempAuth : Option String
  /-- `x-email-pin` -/
  emailPin : Option String
  /-- `x-otp-pin` -/
  otpPin : Option String
deriving DecidableEq

/-- The incoming request: `request.headers` may itself be undefined. -/
structure Request where
  headers : Option Headers
deriving DecidableEq

/-- JavaScript truthiness of an optional header string: `undefined` and the
empty string are falsy. -/
def strTruthy : Option String → Bool
  | none => false
  | some s => s != ""

/-- The guard's outcome at the request boundary: `canActivate` either returns
true (allow) or throws `HttpException('Not authorized for perform action',
HttpStatus.UNAUTHORIZED, { cause })`. -/
inductive GuardOutcome where
  | allow
  | unauthorized (message : String) (status : Nat) (cause : String)
deriving DecidableEq

/-- `AuthenticationJWTDynamic.validateEmailToken(pin, plainPin)`: compare via
`authService.validatePin` (Email-Pin Validator, external collaborator, passed
as a function) and throw `Invalid email pin` on mismatch. -/
def validateEmailToken (validatePin : String → String → Bool)
    (pin plainPin : String) : Except String Unit :=
  if validatePin pin plainPin then .ok () else .error "Invalid email pin"

/-- `AuthenticationJWTDynamic.validateOtpToken(loginId, otp)`: destructure the
first tuple component of `otpService.validateOTP` and throw `Invalid otp pin`
unless it is truthy; a fault inside `validateOTP` propagates as an exception
carrying its message. -/
def validateOtpToken (A : Authenticator) (store : Store)
    (loginId otp : String) : Except String Unit :=
  match OtpService.validateOTP A store loginId otp with
  | .error f => .error f.message
  | .ok (tup, _) =>
    match tup.value with
    | some true => .ok ()
    | _ => .error "Invalid otp pin"

/-- The body of the `try` block of `AuthenticationJWTDynamic.canActivate`,
for a declared policy `params`. Returns the thrown message or success,
paired with the number of `otpService.validateOTP` invocations made. -/
def canActivateTry (secondarySecret : String)
    (processToken : String → BearerTokenProcessor)
    (validatePin : String → String → Bool)
    (A : Authenticator) (store : Store)
    (params : Policy) (req : Request) : Except String Unit × Nat :=
  match req.headers with
  | none => (.error "No header given", 0)
  | some h =>
    if !(strTruthy h.tempAuth) then (.error "No authorization header given", 0)
    else
      let token := h.tempAuth.getD ""
      let btp := processToken token
      if !btp.isBearerToken then (.error "JWT decode error", 0)
      else if !(btp.isSignatureValid secondarySecret) then
        (.error "JWT signature error", 0)
      else if some params.step != btp.payload.map (fun pl => pl.type) then
        (.error "Invalid step", 0)
      else
        match btp.payload with
        | none =>
          -- unreachable: `some params.step != none` is true, so the step
          -- check above already threw
          (.error "Cannot read properties of undefined (reading pin)", 0)
        | some payload =>
          let pin := h.emailPin
          let otp := h.otpPin
          match params.requiredPin with
          | .ONLY_EMAIL =>
            if !(strTruthy pin) then (.error "No email pin given", 0)
            else (validateEmailToken validatePin payload.pin (pin.getD ""), 0)
          | .ONLY_OTP =>
            if !(strTruthy otp) then (.error "No otp pin given", 0)
            else (validateOtpToken A store payload.id (otp.getD ""), 1)
          | .ANY =>
            if !(strTruthy pin) && !(strTruthy otp) then
              (.error "No pin specified", 0)
            else
              match (if strTruthy pin then
                       validateEmailToken validatePin payload.pin (pin.getD "")
                     else .ok ()) with
              | .error m => (.error m, 0)
              | .ok _ =>
                if strTruthy otp then
                  (validateOtpToken A store payload.id (otp.getD ""), 1)
                else (.ok (), 0)
          | .outsideDeclaredMembers => (.ok (), 0)

/-- `AuthenticationJWTDynamic.canActivate`: with no declared policy the
operation is unprotected (allow); otherwise the try body runs and any thrown
error is caught and converted to the single
`HttpException('Not authorized for perform action', 401, { cause })`.
The second component counts `otpService.validateOTP` invocations. -/
def canActivate (secondarySecret : String)
    (processToken : String → BearerTokenProcessor)
    (validatePin : String → String → Bool)
    (A : Authenticator) (store : Store)
    (params : Option Policy) (req : Request) : GuardOutcome × Nat :=
  match params with
  | none => (.allow, 0)
  | some p =>
    let r := canActivateTry secondarySecret processToken validatePin A store p req
    match r.1 with
    | .ok _ => (.allow, r.2)
    | .error msg => (.unauthorized "Not authorized for perform action" 401 msg, r.2)

/-! ### Test fixtures: concrete codecs and stores -/

/-- A concrete codec whose `check` rejects every code. -/
def rejectAllCodec : Authenticator :=
  { check := fun _ _ => false, generatedSecret := "GENERATED",
    keyuri := fun _ _ _ => "otpauth" }

/-- A concrete codec whose `check` accepts every code. -/
def acceptAllCodec : Authenticator :=
  { check := fun _ _ => true, generatedSecret := "GENERATED",
    keyuri := fun _ _ _ => "otpauth" }

/-- A store holding one login `u1` with no OTP secret provisioned. -/
def storeNoSecret : Store := [⟨"u1", "u1@mail.test", none⟩]

/-- A store holding one login `u1` with OTP secret `SECRET1` provisioned. -/
def storeWithSecret : Store := [⟨"u1", "u1@mail.test", some "SECRET1"⟩]

/-! ### Claims about the OTP lifecycle manager -/

/-- Claim C1: for a login whose `otpSecret` is not provisioned (null),
`validateOTP(loginId, candidateCode)` does NOT return a well-defined invalid
result — the source passes the null secret straight into
`authenticator.check`, which raises an unhandled fault. The claim (and the
spec's stated requirement to fail safely) is violated by the code. -/
theorem C1_validateOTP_faults_on_unprovisioned_secret :
    OtpService.validateOTP rejectAllCodec storeNoSecret "u1" "123456"
      = .error .checkNullSecret := by
  rfl

/-- Claim C2: for a login id absent from the store, neither `validateOTP` nor
`removeOTP` returns `LOGIN_NOT_FOUND` — the source builds the
`[null, LOGIN_NOT_FOUND]` tuple but drops it without `return`, falls through,
and dereferences `login.otpToken` on the missing record: a `TypeError`
fault, not the documented error return. -/
theorem C2_missing_login_faults_instead_of_LOGIN_NOT_FOUND :
    OtpService.validateOTP rejectAllCodec storeWithSecret "ghost" "123456"
        = .error (.nullPropertyAccess "otpToken")
    ∧ OtpService.removeOTP rejectAllCodec storeWithSecret "ghost" "123456"
        = .error (.nullPropertyAccess "otpToken") := by
  exact ⟨rfl, rfl⟩

/-- Claim C3: for an existing login with a provisioned secret and a proof code
the codec accepts, `removeOTP` reports success but does NOT clear the stored
secret: it returns `[true, null]` with the store exactly as it came in, and
the record still holds `SECRET1` — contrary to the claim (and the method's own
doc comment) that the secret is removed. -/
theorem C3_removeOTP_success_leaves_secret_in_place :
    OtpService.removeOTP acceptAllCodec storeWithSecret "u1" "000000"
        = .ok (⟨some true, none⟩, storeWithSecret)
    ∧ (findOne storeWithSecret "u1").bind LoginEntity.otpToken
        = some "SECRET1" := by
  exact ⟨rfl, rfl⟩

/-- Claim C5: for every login that already has an `otpSecret` set,
`createOTP(loginId)` returns the error `LOGIN_ALREADY_HAS_OTP` and leaves the
store untouched: no overwrite, no save. -/
theorem C5_createOTP_already_provisioned_is_error (A : Authenticator)
    (appName : String) (store : Store) (loginId : String)
    (login : LoginEntity) (s : String)
    (hfind : findOne store loginId = some login)
    (hsec : login.otpToken = some s) :
    OtpService.createOTP A appName store loginId
      = .ok (⟨none, some .LOGIN_ALREADY_HAS_OTP⟩, store) := by
  unfold OtpService.createOTP
  rw [hfind]
  simp [hsec]

/-- Witness for C5: the concrete store with `u1` provisioned. -/
theorem C5_witness :
    OtpService.createOTP acceptAllCodec "app" storeWithSecret "u1"
      = .ok (⟨none, some .LOGIN_ALREADY_HAS_OTP⟩, storeWithSecret) :=
  C5_createOTP_already_provisioned_is_error acceptAllCodec "app"
    storeWithSecret "u1" ⟨"u1", "u1@mail.test", some "SECRET1"⟩ "SECRET1"
    rfl rfl

/-- Claim C6: for every existing login with a provisioned secret and every
proof code the codec rejects against that secret, `updateOTP` and `removeOTP`
return the error `TOKEN_OTP_INVALID` and return the store exactly as it came
in: no record (and in particular no `otpSecret`) is changed. -/
theorem C6_invalid_proof_code_errors_without_mutation (A : Authenticator)
    (appName : String) (store : Store) (loginId code : String)
    (login : LoginEntity) (s : String)
    (hfind : findOne store loginId = some login)
    (hsec : login.otpToken = some s)
    (hbad : A.check code s = false) :
    OtpService.updateOTP A appName store loginId code
        = .ok (⟨none, some .TOKEN_OTP_INVALID⟩, store)
    ∧ OtpService.removeOTP A store loginId code
        = .ok (⟨none, some .TOKEN_OTP_INVALID⟩, store) := by
  constructor
  · unfold OtpService.updateOTP
    rw [hfind]
    simp [authCheck, hsec, hbad]
  · unfold OtpService.removeOTP
    rw [hfind]
    simp [authCheck, hsec, hbad]

/-- Witness for C6: the rejecting codec on the provisioned store. -/
theorem C6_witness :
    OtpService.updateOTP rejectAllCodec "app" storeWithSecret "u1" "999999"
        = .ok (⟨none, some .TOKEN_OTP_INVALID⟩, storeWithSecret)
    ∧ OtpService.removeOTP rejectAllCodec storeWithSecret "u1" "999999"
        = .ok (⟨none, some .TOKEN_OTP_INVALID⟩, storeWithSecret) :=
  C6_invalid_proof_code_errors_without_mutation rejectAllCodec "app"
    storeWithSecret "u1" "999999" ⟨"u1", "u1@mail.test", some "SECRET1"⟩
    "SECRET1" rfl rfl rfl

/-! ### Claims about the dynamic authorization guard -/

/-- The guard allows a protected request exactly when the try body succeeded. -/
theorem canActivate_allow_iff (secondarySecret : String)
    (processToken : String → BearerTokenProcessor)
    (validatePin : String → String → Bool) (A : Authenticator) (store : Store)
    (p : Policy) (req : Request) :
    (canActivate secondarySecret processToken validatePin A store (some p)
        req).1 = .allow
    ↔ (canActivateTry secondarySecret processToken validatePin A store p
        req).1 = .ok () := by
  cases h : (canActivateTry secondarySecret processToken validatePin A store
      p req).1 with
  | ok u => cases u; simp [canActivate, h]
  | error m => simp [canActivate, h]

/-- Claim C9: under a declared policy, every run of the guard either allows or
fails with the one uniform unauthorized outcome — message
`Not authorized for perform action`, status 401 — the specific reason kept
only as the internal cause. -/
theorem C9_uniform_unauthorized_outcome (secondarySecret : String)
    (processToken : String → BearerTokenProcessor)
    (validatePin : String → String → Bool) (A : Authenticator) (store : Store)
    (p : Policy) (req : Request) :
    (canActivate secondarySecret processToken validatePin A store (some p)
        req).1 = .allow
    ∨ ∃ cause,
      (canActivate secondarySecret processToken validatePin A store (some p)
        req).1 = .unauthorized "Not authorized for perform action" 401 cause := by
  cases h : (canActivateTry secondarySecret processToken validatePin A store
      p req).1 with
  | ok u => left; simp [canActivate, h]
  | error m => right; exact ⟨m, by simp [canActivate, h]⟩

/-- Claim C4: a request whose decoded payload `type` differs from the declared
policy `step` is rejected, whatever the signature validity or the supplied
pins: the guard never returns allow. -/
theorem C4_step_mismatch_always_rejected (secondarySecret : String)
    (processToken : String → BearerTokenProcessor)
    (validatePin : String → String → Bool) (A : Authenticator) (store : Store)
    (p : Policy) (h : Headers) (t : String)
    (hta : h.tempAuth = some t) (htne : t ≠ "")
    (hmis : (processToken t).payload.map (fun pl => pl.type) ≠ some p.step) :
    (canActivate secondarySecret processToken validatePin A store (some p)
        ⟨some h⟩).1 ≠ .allow := by
  intro hallow
  rw [canActivate_allow_iff] at hallow
  have hbe : (t != "") = true := bne_iff_ne.mpr htne
  have hne : (some p.step != (processToken t).payload.map (fun pl => pl.type))
      = true := bne_iff_ne.mpr (fun e => hmis e.symm)
  cases hb : (processToken t).isBearerToken with
  | false => simp [canActivateTry, hta, strTruthy, hbe, hb] at hallow
  | true =>
    cases hs : (processToken t).isSignatureValid secondarySecret with
    | false => simp [canActivateTry, hta, strTruthy, hbe, hb, hs] at hallow
    | true => simp [canActivateTry, hta, strTruthy, hbe, hb, hs, hne] at hallow

/-- Claim C7: under `requiredPin = ANY` with only the email-pin header
supplied (no OTP header) and the token, signature and step checks passing,
the guard allows exactly when the email pin matches, and
`otpService.validateOTP` is invoked zero times. -/
theorem C7_any_with_email_pin_only (secondarySecret : String)
    (processToken : String → BearerTokenProcessor)
    (validatePin : String → String → Bool) (A : Authenticator) (store : Store)
    (p : Policy) (h : Headers) (t pinV : String)
    (payload : JWTDynamicPayloadDTO)
    (hrp : p.requiredPin = .ANY)
    (hta : h.tempAuth = some t) (htne : t ≠ "")
    (hb : (processToken t).isBearerToken = true)
    (hs : (processToken t).isSignatureValid secondarySecret = true)
    (hpld : (processToken t).payload = some payload)
    (hstep : payload.type = p.step)
    (hep : h.emailPin = some pinV) (hpne : pinV ≠ "")
    (hotp : strTruthy h.otpPin = false) :
    canActivate secondarySecret processToken validatePin A store (some p)
        ⟨some h⟩
      = if validatePin payload.pin pinV then (.allow, 0)
        else (.unauthorized "Not authorized for perform action" 401
          "Invalid email pin", 0) := by
  have htat : strTruthy (some t) = true := by
    simpa [strTruthy] using bne_iff_ne.mpr htne
  have hept : strTruthy (some pinV) = true := by
    simpa [strTruthy] using bne_iff_ne.mpr hpne
  cases hv : validatePin payload.pin pinV <;>
    simp [canActivate, canActivateTry, hta, hep, htat, hept, hotp, hb, hs,
      hpld, hstep, hrp, validateEmailToken, hv]

/-- Claim C8: under `requiredPin = ONLY_OTP`, a request with an email-pin
header but no OTP header is rejected, regardless of the email pin's
correctness (and of everything else). -/
theorem C8_only_otp_without_otp_header_rejected (secondarySecret : String)
    (processToken : String → BearerTokenProcessor)
    (validatePin : String → String → Bool) (A : Authenticator) (store : Store)
    (p : Policy) (h : Headers)
    (hrp : p.requiredPin = .ONLY_OTP)
    (hemail : strTruthy h.emailPin = true)
    (hotp : strTruthy h.otpPin = false) :
    (canActivate secondarySecret processToken validatePin A store (some p)
        ⟨some h⟩).1 ≠ .allow := by
  intro hallow
  rw [canActivate_allow_iff] at hallow
  cases hta : strTruthy h.tempAuth with
  | false => simp [canActivateTry, hta] at hallow
  | true =>
    cases hb : (processToken (h.tempAuth.getD "")).isBearerToken with
    | false => simp [canActivateTry, hta, hb] at hallow
    | true =>
      cases hs : (processToken (h.tempAuth.getD "")).isSignatureValid
          secondarySecret with
      | false => simp [canActivateTry, hta, hb, hs] at hallow
      | true =>
        cases hpld : (processToken (h.tempAuth.getD "")).payload with
        | none => simp [canActivateTry, hta, hb, hs, hpld] at hallow
        | some payload =>
          cases hstepc : (some p.step != some payload.type) with
          | true =>
            simp [canActivateTry, hta, hb, hs, hpld, hstepc] at hallow
          | false =>
            simp [canActivateTry, hta, hb, hs, hpld, hstepc, hrp, hotp]
              at hallow

/-- Claim C10: with a declared policy whose `requiredPin` is none of the three
declared members, the switch falls to the default branch: once the token,
signature and step checks pass, the guard allows without reading or validating
either pin header (`otpService.validateOTP` is invoked zero times, and the
outcome does not depend on `validatePin` or the pin headers, which are
universally quantified here). -/
theorem C10_out_of_enum_required_pin_allows (secondarySecret : String)
    (processToken : String → BearerTokenProcessor)
    (validatePin : String → String → Bool) (A : Authenticator) (store : Store)
    (p : Policy) (h : Headers) (t : String) (payload : JWTDynamicPayloadDTO)
    (hrp : p.requiredPin = .outsideDeclaredMembers)
    (hta : h.tempAuth = some t) (htne : t ≠ "")
    (hb : (processToken t).isBearerToken = true)
    (hs : (processToken t).isSignatureValid secondarySecret = true)
    (hpld : (processToken t).payload = some payload)
    (hstep : payload.type = p.step) :
    canActivate secondarySecret processToken validatePin A store (some p)
        ⟨some h⟩ = (.allow, 0) := by
  have hbe : (t != "") = true := bne_iff_ne.mpr htne
  simp [canActivate, canActivateTry, hta, strTruthy, hbe, hb, hs, hpld,
    hstep, hrp]

/-! ### Guard test fixtures and witnesses -/

/-- A token processor for tests: every token decodes (with valid structure and
signature) to step `reset`, login `u1`, pin `4321`. -/
def resetTokenProcessor : String → BearerTokenProcessor :=
  fun _ => ⟨true, fun _ => true, some ⟨"reset", "u1", "4321"⟩⟩

/-- Email-pin comparison by string equality. -/
def eqPin : String → String → Bool := fun a b => a == b

/-- Witness for C4: a token for step `reset` against a policy declaring step
`other`, with correct pins and valid signature, is rejected. -/
theorem C4_witness :
    (canActivate "sec" resetTokenProcessor eqPin acceptAllCodec storeWithSecret
        (some ⟨"other", .ANY⟩)
        ⟨some ⟨some "tok", some "4321", none⟩⟩).1 ≠ .allow :=
  C4_step_mismatch_always_rejected "sec" resetTokenProcessor eqPin
    acceptAllCodec storeWithSecret ⟨"other", .ANY⟩
    ⟨some "tok", some "4321", none⟩ "tok" rfl (by decide) (by decide)

/-- Witness for C7: matching email pin under `ANY` with no OTP header. -/
theorem C7_witness :
    canActivate "sec" resetTokenProcessor eqPin acceptAllCodec storeWithSecret
        (some ⟨"reset", .ANY⟩) ⟨some ⟨some "tok", some "4321", none⟩⟩
      = if eqPin "4321" "4321" then ((.allow, 0) : GuardOutcome × Nat)
        else (.unauthorized "Not authorized for perform action" 401
          "Invalid email pin", 0) :=
  C7_any_with_email_pin_only "sec" resetTokenProcessor eqPin acceptAllCodec
    storeWithSecret ⟨"reset", .ANY⟩ ⟨some "tok", some "4321", none⟩ "tok"
    "4321" ⟨"reset", "u1", "4321"⟩ rfl rfl (by decide) rfl rfl rfl rfl rfl
    (by decide) rfl

/-- Witness for C8: correct email pin, no OTP header, `ONLY_OTP`: rejected. -/
theorem C8_witness :
    (canActivate "sec" resetTokenProcessor eqPin acceptAllCodec storeWithSecret
        (some ⟨"reset", .ONLY_OTP⟩)
        ⟨some ⟨some "tok", some "4321", none⟩⟩).1 ≠ .allow :=
  C8_only_otp_without_otp_header_rejected "sec" resetTokenProcessor eqPin
    acceptAllCodec storeWithSecret ⟨"reset", .ONLY_OTP⟩
    ⟨some "tok", some "4321", none⟩ rfl (by decide) rfl

/-- Witness for C10: an out-of-enum `requiredPin` with no pin headers at all
still allows once the token checks pass. -/
theorem C10_witness :
    canActivate "sec" resetTokenProcessor eqPin acceptAllCodec storeWithSecret
        (some ⟨"reset", .outsideDeclaredMembers⟩)
        ⟨some ⟨some "tok", none, none⟩⟩ = (.allow, 0) :=
  C10_out_of_enum_required_pin_allows "sec" resetTokenProcessor eqPin
    acceptAllCodec storeWithSecret ⟨"reset", .outsideDeclaredMembers⟩
    ⟨some "tok", none, none⟩ "tok" ⟨"reset", "u1", "4321"⟩ rfl rfl
    (by decide) rfl rfl rfl rfl

end OmAuth
